import Mathlib

/-!
Verification development for the comp-comm-portfolio backend: a shallow
embedding of the event-driven message-processing pipeline
(`backend/server.py`, `backend/compound_assistant/...`) together with
theorems settling the specification's claims about it.

Conventions of the embedding:
* Message hashes are modelled as `List Char` (a Python `str` is a sequence
  of characters); other strings stay `String`.
* Environment lookups (`os.getenv`) are modelled as `Option String` /
  `String`-with-default arguments, matching each call site's default.
* External collaborators (web3 RPC calls, signing, the agent) are modelled
  by explicit outcome parameters: a call that can raise is an
  `Except String _` value, a view call is a function out of a chain-state
  record.  The embedded functions then follow the Python control flow —
  in particular every `try/except` becomes a `match` on the outcome.
-/

namespace CompPortfolio

/-- A message hash as the Python code sees it: a character string. -/
abbrev MsgHash := List Char

/-- The repeated normalization expression from
`contracts/message_manager.py` (`message_hash.startswith("0x")`):
true iff the string begins with the two characters `0x`. -/
def startsWith0x : MsgHash → Bool
  | '0' :: 'x' :: _ => true
  | _ => false

/-- `message_hash if message_hash.startswith("0x") else f"0x{message_hash}"` —
the hash-normalization expression repeated verbatim in `get_paid_message`,
`is_message_processed` and `mark_message_processed`
(`contracts/message_manager.py` lines 119, 131, 144). -/
def normalize0x (message_hash : MsgHash) : MsgHash :=
  if startsWith0x message_hash then message_hash else '0' :: 'x' :: message_hash

/-- The chain-side view state of the MessageManager contract as consumed by
the backend: the `paidMessages` and `processedMessages` public mappings
(see the ABI in `contracts/message_manager.py`).  Solidity mappings are
total with a default value, so they are modelled as total functions. -/
structure ChainState where
  paidMessages : MsgHash → String
  processedMessages : MsgHash → Bool

/-- `MessageManagerContract.get_paid_message`
(`contracts/message_manager.py` lines 110-120): normalizes the hash and
calls the `paidMessages` view function. -/
def get_paid_message (st : ChainState) (message_hash : MsgHash) : String :=
  let normalized_hash := normalize0x message_hash
  st.paidMessages normalized_hash

/-- `MessageManagerContract.is_message_processed`
(`contracts/message_manager.py` lines 122-132): normalizes the hash and
calls the `processedMessages` view function. -/
def is_message_processed (st : ChainState) (message_hash : MsgHash) : Bool :=
  let normalized_hash := normalize0x message_hash
  st.processedMessages normalized_hash

/-- The transaction dict built by
`MessageManagerContract.mark_message_processed`
(`contracts/message_manager.py` lines 134-151). -/
structure BuiltTx where
  dataHash : MsgHash
  sender : String
  gas : Nat
  gasPrice : Nat
  nonce : Nat
deriving DecidableEq

/-- The web3 facts `mark_message_processed` reads while building its
transaction: `w3.eth.gas_price` and `w3.eth.get_transaction_count`. -/
structure Web3View where
  gas_price : Nat
  transaction_count : String → Nat

/-- `MessageManagerContract.mark_message_processed`
(`contracts/message_manager.py` lines 134-151): normalizes the hash, then
builds (and returns, without sending) the `markMessageProcessed`
transaction with a fixed gas limit of 100000, the current gas price, and
`nonce = get_transaction_count(from_address)`. -/
def mark_message_processed_build (w3 : Web3View) (message_hash : MsgHash)
    (from_address : String) : BuiltTx :=
  let normalized_hash := normalize0x message_hash
  { dataHash := normalized_hash
    sender := from_address
    gas := 100000
    gasPrice := w3.gas_price
    nonce := w3.transaction_count from_address }

theorem startsWith0x_cons_cons (h : MsgHash) : startsWith0x ('0' :: 'x' :: h) = true := rfl

theorem normalize0x_of_not_prefixed {h : MsgHash} (hp : startsWith0x h = false) :
    normalize0x h = '0' :: 'x' :: h := by
  simp [normalize0x, hp]

theorem normalize0x_prepend (h : MsgHash) :
    normalize0x ('0' :: 'x' :: h) = '0' :: 'x' :: h := by
  simp [normalize0x, startsWith0x_cons_cons]

/-- C8: each of the three MessageManager interface methods normalizes its
hash argument identically — for a hash `h` that does not start with `0x`,
calling `get_paid_message`, `is_message_processed` or
`mark_message_processed` with `h` gives the same result as calling it with
`"0x" ++ h` (`contracts/message_manager.py` lines 110-151). -/
theorem hash_normalization_uniform (st : ChainState) (w3 : Web3View)
    (h : MsgHash) (from_address : String) (hp : startsWith0x h = false) :
    get_paid_message st h = get_paid_message st ('0' :: 'x' :: h)
    ∧ is_message_processed st h = is_message_processed st ('0' :: 'x' :: h)
    ∧ mark_message_processed_build w3 h from_address
        = mark_message_processed_build w3 ('0' :: 'x' :: h) from_address := by
  refine ⟨?_, ?_, ?_⟩ <;>
    simp [get_paid_message, is_message_processed, mark_message_processed_build,
      normalize0x_of_not_prefixed hp, normalize0x_prepend]

/-- Witness for C8 at the concrete hash `"abc"` (not `0x`-prefixed), a
one-point chain state and web3 view. -/
theorem hash_normalization_uniform_witness :
    startsWith0x ['a', 'b', 'c'] = false
    ∧ (get_paid_message ⟨fun _ => "m", fun _ => true⟩ ['a', 'b', 'c']
          = get_paid_message ⟨fun _ => "m", fun _ => true⟩ ('0' :: 'x' :: ['a', 'b', 'c'])
        ∧ is_message_processed ⟨fun _ => "m", fun _ => true⟩ ['a', 'b', 'c']
          = is_message_processed ⟨fun _ => "m", fun _ => true⟩ ('0' :: 'x' :: ['a', 'b', 'c'])
        ∧ mark_message_processed_build ⟨7, fun _ => 3⟩ ['a', 'b', 'c'] "0xagent"
          = mark_message_processed_build ⟨7, fun _ => 3⟩ ('0' :: 'x' :: ['a', 'b', 'c']) "0xagent") :=
  ⟨rfl, hash_normalization_uniform ⟨fun _ => "m", fun _ => true⟩ ⟨7, fun _ => 3⟩
    ['a', 'b', 'c'] "0xagent" rfl⟩

/-! ## Event acceptance (`blockchain/event_listener.py`, claim C1)

`EventListener._handle_message_paid_event` (lines 85-121) parses the event
payload, normalizes the hash (`Web3.to_hex` for bytes, which always yields
a `0x`-prefixed string, or the string ternary modelled below), and — when a
`MessagePaid` handler is registered — invokes that handler with the parsed
data.  Its only inputs are the event object and the handler registry. -/

/-- The parsed `MessagePaid` event payload as extracted at
`blockchain/event_listener.py` lines 93-97 (string-hash case). -/
structure MessagePaidEvent where
  messageHash : MsgHash
  payer : String
  userMint : Nat
  devMint : Nat
  blockNumber : Nat
  transactionHash : String
deriving DecidableEq

/-- Observable outcome of `EventListener._handle_message_paid_event`:
either the registered handler is invoked with the parsed data (a
processing Job begins), or only a warning is logged. -/
inductive AcceptOutcome where
  | handlerInvoked (messageHash : MsgHash) (payer : String)
      (userMint devMint blockNumber : Nat)
  | noHandlerWarning
deriving DecidableEq

/-- `EventListener._handle_message_paid_event`
(`blockchain/event_listener.py` lines 85-121): normalizes the raw hash to
a `0x`-prefixed string and dispatches to the registered `MessagePaid`
handler if one exists.  No other condition guards the dispatch: the
function takes no chain state and performs no `is_message_processed`
read. -/
def handle_message_paid_event_accept (handlerRegistered : Bool)
    (event : MessagePaidEvent) : AcceptOutcome :=
  let message_hash :=
    if startsWith0x event.messageHash then event.messageHash
    else '0' :: 'x' :: event.messageHash
  if handlerRegistered then
    .handlerInvoked message_hash event.payer event.userMint event.devMint
      event.blockNumber
  else
    .noHandlerWarning

/-- A chain state on which every message is already marked processed. -/
def allProcessedState : ChainState :=
  { paidMessages := fun _ => "", processedMessages := fun _ => true }

/-- C1 counterexample: a concrete event whose id the chain already marks
processed is nevertheless dispatched to the handler (a Job is created) —
the acceptance step performs no processed-flag check and returns no
rejection. -/
theorem accept_processed_event_counterexample :
    is_message_processed allProcessedState ['0', 'x', 'a', 'b'] = true
    ∧ handle_message_paid_event_accept true
        ⟨['0', 'x', 'a', 'b'], "0xPayer", 5, 1, 42, "0xtx"⟩
      = .handlerInvoked ['0', 'x', 'a', 'b'] "0xPayer" 5 1 42 :=
  ⟨rfl, rfl⟩

/-- C1 amended: the acceptance step consults no processed flag — for every
event, even one whose id is already marked processed on the chain state,
a registered handler is invoked with the parsed (normalized) data; the
contract-side `is_message_processed` read exists
(`contracts/message_manager.py` lines 122-132) but is never called before
admitting. -/
theorem accept_ignores_processed_flag (st : ChainState)
    (event : MessagePaidEvent)
    (hp : is_message_processed st (normalize0x event.messageHash) = true) :
    handle_message_paid_event_accept true event
      = .handlerInvoked (normalize0x event.messageHash) event.payer
          event.userMint event.devMint event.blockNumber := by
  simp [handle_message_paid_event_accept, normalize0x]

/-- Witness for C1's amended theorem at a concrete all-processed chain
state and event. -/
theorem accept_ignores_processed_flag_witness :
    is_message_processed allProcessedState
        (normalize0x ['a', 'b']) = true
    ∧ handle_message_paid_event_accept true ⟨['a', 'b'], "0xP", 2, 3, 9, "0xt"⟩
        = .handlerInvoked (normalize0x ['a', 'b']) "0xP" 2 3 9 :=
  ⟨rfl, accept_ignores_processed_flag allProcessedState
    ⟨['a', 'b'], "0xP", 2, 3, 9, "0xt"⟩ rfl⟩

/-! ## WebSocket `ConnectionManager` (`server.py` lines 124-164, claims C5, C9)

Connections are opaque identities; we model a `WebSocket` object by a
`Nat` identity and the manager's `active_connections` by a `List Nat` in
insertion order.  Whether `await connection.send_text(message)` raises for
a given connection during one broadcast is modelled by a predicate
`sendOk : Nat → Bool` (the frame being broadcast is fixed throughout one
call, so per-connection success is all that matters). -/

/-- `ConnectionManager.disconnect` (`server.py` lines 132-134):
`if websocket in self.active_connections: self.active_connections.remove(websocket)`.
Python `list.remove` deletes the first occurrence; the membership guard
makes the operation total (no `ValueError`). -/
def disconnect (websocket : Nat) (active_connections : List Nat) : List Nat :=
  if websocket ∈ active_connections then active_connections.erase websocket
  else active_connections

/-- `ConnectionManager.broadcast` (`server.py` lines 143-162): if there are
no active connections, return at once; otherwise attempt
`connection.send_text` on every connection in order, collecting the ones
whose send raised into `failed_connections`, then `disconnect` each failed
connection.  Result: (connections whose send succeeded — i.e. that
received the frame, connections still active afterwards). -/
def broadcast (sendOk : Nat → Bool) (active_connections : List Nat) :
    List Nat × List Nat :=
  if active_connections = [] then ([], active_connections)
  else
    let failed_connections := active_connections.filter (fun c => !(sendOk c))
    let delivered := active_connections.filter (fun c => sendOk c)
    (delivered, failed_connections.foldl (fun l c => disconnect c l) active_connections)

theorem mem_disconnect_of_ne {c x : Nat} {l : List Nat} (hc : c ∈ l)
    (hne : x ≠ c) : c ∈ disconnect x l := by
  unfold disconnect
  split
  · exact (List.mem_erase_of_ne (Ne.symm hne)).2 hc
  · exact hc

theorem disconnect_subset (x : Nat) (l : List Nat) :
    ∀ c ∈ disconnect x l, c ∈ l := by
  intro c hc
  unfold disconnect at hc
  split at hc
  · exact List.mem_of_mem_erase hc
  · exact hc

theorem mem_foldl_disconnect {c : Nat} {fs : List Nat} :
    ∀ {l : List Nat}, c ∈ l → (∀ x ∈ fs, x ≠ c) →
      c ∈ fs.foldl (fun l x => disconnect x l) l := by
  induction fs with
  | nil => intro l hc _; simpa using hc
  | cons x fs ih =>
      intro l hc hne
      simp only [List.foldl_cons]
      exact ih (mem_disconnect_of_ne hc (hne x (List.mem_cons_self x fs)))
        (fun y hy => hne y (List.mem_cons_of_mem x hy))

theorem foldl_disconnect_subset (fs : List Nat) :
    ∀ (l : List Nat), ∀ c ∈ fs.foldl (fun l x => disconnect x l) l, c ∈ l := by
  induction fs with
  | nil => intro l c hc; simpa using hc
  | cons x fs ih =>
      intro l c hc
      simp only [List.foldl_cons] at hc
      exact disconnect_subset x l c (ih (disconnect x l) c hc)

theorem count_disconnect_self (c : Nat) (l : List Nat) :
    (disconnect c l).count c = l.count c - 1 := by
  unfold disconnect
  split
  · exact List.count_erase_self c l
  · rename_i hmem
    have h0 : l.count c = 0 := List.count_eq_zero.2 hmem
    omega

theorem count_disconnect_other {c x : Nat} (l : List Nat) (h : x ≠ c) :
    (disconnect x l).count c = l.count c := by
  unfold disconnect
  split
  · exact List.count_erase_of_ne (Ne.symm h) l
  · rfl

theorem count_foldl_disconnect (c : Nat) (fs : List Nat) :
    ∀ l : List Nat,
      (fs.foldl (fun l x => disconnect x l) l).count c = l.count c - fs.count c := by
  induction fs with
  | nil => intro l; simp
  | cons x fs ih =>
      intro l
      simp only [List.foldl_cons]
      rw [ih (disconnect x l)]
      by_cases hx : x = c
      · subst hx
        rw [count_disconnect_self, List.count_cons_self]
        omega
      · rw [count_disconnect_other l hx, List.count_cons_of_ne (Ne.symm hx)]

theorem count_filter_failed (sendOk : Nat → Bool) (c : Nat) (l : List Nat)
    (h : sendOk c = false) :
    (l.filter (fun x => !(sendOk x))).count c = l.count c := by
  induction l with
  | nil => rfl
  | cons a l ih =>
      by_cases hac : a = c
      · subst hac
        simp [List.filter_cons, h, List.count_cons_self, ih]
      · cases hsa : sendOk a <;>
          simp [List.filter_cons, hsa, List.count_cons_of_ne (Ne.symm hac), ih]

/-- C5: in every broadcast, (1) every active connection whose send
succeeds receives the frame, (2) every such connection is still active
afterwards — one connection's failure never prevents delivery to, or
removes, the others, (3) only connections whose send failed are removed
from the active set, (4) no connection is added, and (5) every connection
whose send failed is in fact removed from the active set. -/
theorem broadcast_isolates_failures (sendOk : Nat → Bool)
    (l : List Nat) :
    (∀ c ∈ l, sendOk c = true → c ∈ (broadcast sendOk l).1)
    ∧ (∀ c ∈ l, sendOk c = true → c ∈ (broadcast sendOk l).2)
    ∧ (∀ c ∈ l, c ∉ (broadcast sendOk l).2 → sendOk c = false)
    ∧ (∀ c ∈ (broadcast sendOk l).2, c ∈ l)
    ∧ (∀ c ∈ l, sendOk c = false → c ∉ (broadcast sendOk l).2) := by
  by_cases hl : l = []
  · subst hl; simp [broadcast]
  · refine ⟨?_, ?_, ?_, ?_, ?_⟩
    · intro c hc hok
      simp [broadcast, hl, List.mem_filter, hc, hok]
    · intro c hc hok
      simp only [broadcast, hl, if_neg hl]
      exact mem_foldl_disconnect hc (by
        intro x hx hxc
        subst hxc
        have := (List.mem_filter.1 hx).2
        simp [hok] at this)
    · intro c hc hmem
      by_contra hok
      have hok' : sendOk c = true := by
        cases h : sendOk c
        · exact absurd h hok
        · rfl
      exact hmem (by
        simp only [broadcast, if_neg hl]
        exact mem_foldl_disconnect hc (by
          intro x hx hxc
          subst hxc
          have := (List.mem_filter.1 hx).2
          simp [hok'] at this))
    · intro c hc
      simp only [broadcast, if_neg hl] at hc
      exact foldl_disconnect_subset _ l c hc
    · intro c hc hfail
      simp only [broadcast, if_neg hl]
      refine List.count_eq_zero.1 ?_
      rw [count_foldl_disconnect, count_filter_failed sendOk c l hfail]
      omega

/-- Witness for C5 on the concrete active list `[1, 2, 3]` where the send
to connection `2` fails: `1` and `3` receive the frame and stay active,
`2` is removed, and only `2` is removed. -/
theorem broadcast_isolates_failures_witness :
    (1 ∈ [1, 2, 3] ∧ (fun c => c != 2) 1 = true
      ∧ 1 ∈ (broadcast (fun c => c != 2) [1, 2, 3]).1)
    ∧ (3 ∈ [1, 2, 3] ∧ (fun c => c != 2) 3 = true
      ∧ 3 ∈ (broadcast (fun c => c != 2) [1, 2, 3]).2)
    ∧ (2 ∈ [1, 2, 3] ∧ 2 ∉ (broadcast (fun c => c != 2) [1, 2, 3]).2
      → (fun c => c != 2) 2 = false)
    ∧ (2 ∈ [1, 2, 3] ∧ (fun c => c != 2) 2 = false
      ∧ 2 ∉ (broadcast (fun c => c != 2) [1, 2, 3]).2) :=
  ⟨⟨by decide, by decide,
      (broadcast_isolates_failures (fun c => c != 2) [1, 2, 3]).1 1
        (by decide) (by decide)⟩,
    ⟨by decide, by decide,
      (broadcast_isolates_failures (fun c => c != 2) [1, 2, 3]).2.1 3
        (by decide) (by decide)⟩,
    fun hp => (broadcast_isolates_failures (fun c => c != 2) [1, 2, 3]).2.2.1 2
        hp.1 hp.2,
    by decide, by decide,
    (broadcast_isolates_failures (fun c => c != 2) [1, 2, 3]).2.2.2.2 2
      (by decide) (by decide)⟩

/-- C9: `disconnect` is total (it is a function; the membership guard in
the source avoids `list.remove`'s `ValueError`), leaves the list unchanged
when the websocket is not active, and is idempotent on every manager state
in which a websocket appears at most once — the invariant the server
maintains, since `manager.connect` is called exactly once per accepted
websocket object (`server.py` line 424). -/
theorem disconnect_total_idempotent (websocket : Nat) (l : List Nat)
    (hcount : l.count websocket ≤ 1) :
    (websocket ∉ l → disconnect websocket l = l)
    ∧ disconnect websocket (disconnect websocket l) = disconnect websocket l := by
  constructor
  · intro hmem
    simp [disconnect, hmem]
  · by_cases hmem : websocket ∈ l
    · have hnot : websocket ∉ l.erase websocket := by
        rw [← List.count_pos_iff]
        have := List.count_erase_self websocket l
        omega
      simp [disconnect, hmem, hnot]
    · simp [disconnect, hmem]

/-- Witness for C9 at the concrete state `[1, 5, 2]` and websocket `5`. -/
theorem disconnect_total_idempotent_witness :
    ([1, 5, 2].count 5 ≤ 1)
    ∧ ((5 ∉ [1, 5, 2] → disconnect 5 [1, 5, 2] = [1, 5, 2])
      ∧ disconnect 5 (disconnect 5 [1, 5, 2]) = disconnect 5 [1, 5, 2]) :=
  ⟨by decide, disconnect_total_idempotent 5 [1, 5, 2] (by decide)⟩

/-! ## `MessageEventHandler` pipeline (`event_handlers/message_handler.py`, claims C2, C3)

The handler drives one Job: fetch content, stream the agent, then
`_mark_processed_and_notify`.  The observable behaviour of one run is a
list of effects: websocket broadcast frames and calls to
`EventListener.mark_message_processed` (the on-chain acknowledgement
attempt).  The agent collaborator is modelled by its outcome: the chunks
it yielded, and whether it raised. -/

/-- The broadcast frame types emitted by the handler
(`message_handler.py` lines 69-74, 105-127, 164-174). -/
inductive Frame where
  | messageReceived
  | toolCall
  | agentText
  | toolResult
  | processingComplete (success : Bool) (markedProcessed : Bool) (error : Option String)
deriving DecidableEq

/-- One observable effect of a handler run. -/
inductive Effect where
  | broadcastFrame (frame : Frame)
  | ackAttempt (markResult : Bool)
deriving DecidableEq

/-- One chunk yielded by `self.agent.stream(...)`
(`message_handler.py` lines 80-127): an `"agent"` chunk carrying tool
calls and text content, or a `"tools"` chunk carrying a tool result. -/
inductive AgentChunk where
  | agentStep (toolCalls : List String) (content : String)
  | toolStep (content : String)
deriving DecidableEq

/-- Outcome of the agent stream: it either completes after yielding
`chunks`, or raises after yielding `chunks`. -/
inductive AgentOutcome where
  | completes (chunks : List AgentChunk)
  | raisesAfter (chunks : List AgentChunk) (err : String)
deriving DecidableEq

/-- Signing environment seen by `_mark_processed_and_notify`
(`message_handler.py` lines 147-158): `w3.eth.default_account` and the
`PRIVATE_KEY` environment variable. -/
structure HandlerEnv where
  default_account : Option String
  private_key : Option String
deriving DecidableEq

/-- The address the external web3 library derives from a private key
(`w3.eth.account.from_key(private_key).address`); modelled abstractly —
only its existence matters to the handler's control flow. -/
def address_from_key (private_key : String) : String :=
  "0x" ++ private_key

/-- Agent-address resolution in `_mark_processed_and_notify`
(`message_handler.py` lines 147-158): use `w3.eth.default_account` if
set, otherwise derive an address from `PRIVATE_KEY` if present, otherwise
log an error and give up. -/
def resolve_agent_address (env : HandlerEnv) : Option String :=
  match env.default_account with
  | some addr => some addr
  | none =>
    match env.private_key with
    | some pk => some (address_from_key pk)
    | none => none

/-- `MessageEventHandler._mark_processed_and_notify`
(`message_handler.py` lines 138-182): resolve the agent address (if none
resolves, return having done nothing); otherwise call
`EventListener.mark_message_processed` — whose boolean result is the
chain-determined `markResult` — and broadcast the `processing_complete`
notification carrying `success`, the mark result, and the error if any. -/
def mark_processed_and_notify (env : HandlerEnv) (markResult : Bool)
    (success : Bool) (error : Option String) : List Effect :=
  match resolve_agent_address env with
  | none => []
  | some _ =>
      [.ackAttempt markResult,
        .broadcastFrame (.processingComplete success markResult error)]

/-- The frames broadcast for one agent chunk
(`message_handler.py` lines 84-127): a `tool_call` frame per tool call,
an `agent` frame when the chunk has nonempty content, a `tool` frame for
a tool-result chunk. -/
def chunk_effects : AgentChunk → List Effect
  | .agentStep toolCalls content =>
      toolCalls.map (fun _ => .broadcastFrame .toolCall)
        ++ (if content = "" then [] else [.broadcastFrame .agentText])
  | .toolStep _ => [.broadcastFrame .toolResult]

/-- `MessageEventHandler._process_message_with_agent`
(`message_handler.py` lines 56-136): broadcast `message_received`, stream
the agent forwarding each chunk's frames, then — whether the stream
completed or raised — call `_mark_processed_and_notify` exactly at the
end of whichever branch ran (`success=True` on completion,
`error=str(e)` in the `except` branch). -/
def process_message_with_agent (env : HandlerEnv) (markResult : Bool)
    (outcome : AgentOutcome) : List Effect :=
  match outcome with
  | .completes chunks =>
      .broadcastFrame .messageReceived :: (chunks.map chunk_effects).flatten
        ++ mark_processed_and_notify env markResult true none
  | .raisesAfter chunks err =>
      .broadcastFrame .messageReceived :: (chunks.map chunk_effects).flatten
        ++ mark_processed_and_notify env markResult false (some err)

/-- `EventListener.get_message_content`
(`blockchain/event_listener.py` lines 131-150): `readResult` is the
contract read's outcome (`none` models a raised exception); a raised
exception or an empty message yields `None`. -/
def get_message_content (readResult : Option String) : Option String :=
  match readResult with
  | some message => if message = "" then none else some message
  | none => none

/-- `MessageEventHandler.handle_message_paid_event`
(`message_handler.py` lines 27-54): fetch the content; if none is found,
`return await self._mark_processed_and_notify(hash, error="Message
content not found")`; otherwise process with the agent. -/
def handler_handle_message_paid_event (env : HandlerEnv) (markResult : Bool)
    (readResult : Option String) (outcome : AgentOutcome) : List Effect :=
  match get_message_content readResult with
  | none =>
      mark_processed_and_notify env markResult false
        (some "Message content not found")
  | some _ => process_message_with_agent env markResult outcome

/-- Whether an effect is an acknowledgement attempt (a call to
`EventListener.mark_message_processed`). -/
def isAckAttempt : Effect → Bool
  | .ackAttempt _ => true
  | _ => false

/-- Number of acknowledgement attempts in a run's effect list. -/
def ackCount (effects : List Effect) : Nat :=
  (effects.filter isAckAttempt).length

theorem ackCount_append (l1 l2 : List Effect) :
    ackCount (l1 ++ l2) = ackCount l1 + ackCount l2 := by
  simp [ackCount, List.filter_append]

theorem ackCount_cons_broadcast (fr : Frame) (l : List Effect) :
    ackCount (Effect.broadcastFrame fr :: l) = ackCount l := by
  simp [ackCount, List.filter_cons, isAckAttempt]

theorem ackCount_const_frames (fr : Frame) (l : List String) :
    ackCount (l.map (fun _ => Effect.broadcastFrame fr)) = 0 := by
  induction l with
  | nil => rfl
  | cons a l ih => simpa [ackCount_cons_broadcast] using ih

theorem ackCount_chunk_effects (c : AgentChunk) : ackCount (chunk_effects c) = 0 := by
  cases c with
  | agentStep toolCalls content =>
      rw [chunk_effects, ackCount_append, ackCount_const_frames]
      by_cases h : content = "" <;> simp [h, ackCount, isAckAttempt]
  | toolStep content => rfl

theorem ackCount_flatten_chunks (chunks : List AgentChunk) :
    ackCount ((chunks.map chunk_effects).flatten) = 0 := by
  induction chunks with
  | nil => rfl
  | cons c cs ih =>
      rw [List.map_cons, List.flatten_cons, ackCount_append,
        ackCount_chunk_effects, ih]

theorem ackCount_mark_processed_and_notify (env : HandlerEnv)
    (markResult success : Bool) (error : Option String) :
    ackCount (mark_processed_and_notify env markResult success error)
      = if (resolve_agent_address env).isSome then 1 else 0 := by
  cases h : resolve_agent_address env <;>
    simp [mark_processed_and_notify, h, ackCount, isAckAttempt]

/-- C2 amended: for every Job that reaches agent processing, the on-chain
acknowledgement is attempted exactly once when a signing address resolves
(`default_account` set or `PRIVATE_KEY` present) — both when the agent
stream completes and when it raises — and exactly zero times when no
signing address is available (then `_mark_processed_and_notify` returns
before calling `mark_message_processed`). -/
theorem ack_attempted_once_iff_address (env : HandlerEnv) (markResult : Bool)
    (outcome : AgentOutcome) :
    ackCount (process_message_with_agent env markResult outcome)
      = if (resolve_agent_address env).isSome then 1 else 0 := by
  cases outcome <;>
    simp [process_message_with_agent, ackCount_cons_broadcast, ackCount_append,
      ackCount_flatten_chunks, ackCount_mark_processed_and_notify]

/-- C2 counterexample: with `default_account` unset and `PRIVATE_KEY`
absent, a Job that reaches agent processing and completes normally makes
zero acknowledgement attempts — refuting "never zero times". -/
theorem ack_attempted_once_counterexample :
    ackCount (process_message_with_agent ⟨none, none⟩ true (.completes [])) = 0 := by
  decide

/-- C3 amended: when the content fetch fails or returns empty, the run
degenerates to `_mark_processed_and_notify` with the content-missing
error — no agent frames are produced, the completion notification carries
`success = false` and the error — but the acknowledgement transaction IS
still attempted (exactly once whenever a signing address resolves): the
code marks a paid message processed even when its content is missing. -/
theorem content_missing_marks_processed (env : HandlerEnv) (markResult : Bool)
    (readResult : Option String) (outcome : AgentOutcome)
    (h : get_message_content readResult = none) :
    handler_handle_message_paid_event env markResult readResult outcome
      = mark_processed_and_notify env markResult false
          (some "Message content not found")
    ∧ ackCount (handler_handle_message_paid_event env markResult readResult outcome)
      = if (resolve_agent_address env).isSome then 1 else 0 := by
  rw [handler_handle_message_paid_event, h]
  exact ⟨rfl, ackCount_mark_processed_and_notify env markResult false _⟩

/-- Witness for C3's amended theorem at a concrete environment with a
default account and a failed content read. -/
theorem content_missing_marks_processed_witness :
    get_message_content none = none
    ∧ (handler_handle_message_paid_event ⟨some "0xagent", none⟩ true none
          (.completes [])
        = mark_processed_and_notify ⟨some "0xagent", none⟩ true false
            (some "Message content not found")
      ∧ ackCount (handler_handle_message_paid_event ⟨some "0xagent", none⟩ true
            none (.completes []))
        = if (resolve_agent_address ⟨some "0xagent", none⟩).isSome then 1 else 0) :=
  ⟨rfl, content_missing_marks_processed ⟨some "0xagent", none⟩ true none
    (.completes []) rfl⟩

/-- C3 counterexample: with `PRIVATE_KEY` present and a content read that
found nothing, the handler still makes an acknowledgement attempt —
refuting "no acknowledgement transaction is sent". -/
theorem content_missing_no_ack_counterexample :
    ackCount (handler_handle_message_paid_event ⟨none, some "key"⟩ true none
      (.completes [])) ≠ 0 := by
  decide

/-! ## Nonce allocation across concurrent Jobs (claim C4)

Both acknowledgement builders — `mark_message_processed` in `server.py`
(lines 368-401) and `MessageEventListener._mark_message_processed` in
`compound_assistant/event_listener.py` (lines 184-215) — set the
transaction nonce with
`'nonce': web3.eth.get_transaction_count(account.address)`.
There is no process-wide counter, no lock, and no increment: each Job
independently re-reads the chain's confirmed transaction count at build
time.  We model the interleaving of concurrent Jobs' nonce reads with the
mining of their transactions: a schedule is a list of steps, each either a
Job's nonce read (which appends `get_transaction_count` of the current
chain state to the allocation log) or the mining of a previously sent
transaction (which increments the confirmed count). -/

/-- `web3.eth.get_transaction_count(address)` for the single signing
account: the chain's confirmed transaction count. -/
def get_transaction_count (confirmedCount : Nat) : Nat := confirmedCount

/-- One scheduler step: a Job reads its nonce
(`get_transaction_count` at transaction-build time, as in the two
`mark_message_processed` builders), or a previously sent acknowledgement
transaction is mined, incrementing the account's confirmed count. -/
inductive NonceStep where
  | readNonce (job : Nat)
  | mineTx (job : Nat)
deriving DecidableEq

/-- Chain + process view relevant to nonce allocation: the account's
confirmed transaction count and the log of nonces allocated so far. -/
structure NonceState where
  confirmedCount : Nat
  allocated : List Nat
deriving DecidableEq

/-- Effect of one scheduler step. -/
def nonceStep (s : NonceState) : NonceStep → NonceState
  | .readNonce _ =>
      { s with allocated := s.allocated ++ [get_transaction_count s.confirmedCount] }
  | .mineTx _ => { s with confirmedCount := s.confirmedCount + 1 }

/-- Run a schedule of concurrent Jobs from a fresh account. -/
def runNonceSchedule (steps : List NonceStep) : NonceState :=
  steps.foldl nonceStep ⟨0, []⟩

/-- The fully serialized schedule: each of `n` Jobs reads its nonce and
has its transaction mined before the next Job reads. -/
def serializedSchedule (n : Nat) : List NonceStep :=
  (List.range n).flatMap (fun i => [.readNonce i, .mineTx i])

theorem serializedSchedule_succ (n : Nat) :
    serializedSchedule (n + 1)
      = serializedSchedule n ++ [.readNonce n, .mineTx n] := by
  simp [serializedSchedule, List.range_succ]

theorem foldl_nonceStep_serialized (n : Nat) (s : NonceState) :
    (serializedSchedule n).foldl nonceStep s
      = ⟨s.confirmedCount + n,
          s.allocated ++ (List.range n).map (fun i => s.confirmedCount + i)⟩ := by
  induction n with
  | zero => simp [serializedSchedule]
  | succ n ih =>
      rw [serializedSchedule_succ, List.foldl_append, ih]
      simp [nonceStep, get_transaction_count, List.range_succ]
      omega

theorem chain_lt_range (n : Nat) : List.Chain' (· < ·) (List.range n) := by
  cases n with
  | zero => simp
  | succ m => exact (List.chain'_range_succ (· < ·) m).2 (fun i _ => Nat.lt_succ_self i)

/-- C4 amended (positive half): under a fully serialized schedule — each
acknowledgement transaction mined before the next Job reads — the nonces
allocated by the chain re-read are `0, 1, …, n-1`: strictly increasing
and never repeated.  Serialization is the scheduler's doing, not the
code's: the builders take no lock and keep no counter. -/
theorem serialized_nonces_strictly_increasing (n : Nat) :
    (runNonceSchedule (serializedSchedule n)).allocated = List.range n
    ∧ List.Chain' (· < ·) (runNonceSchedule (serializedSchedule n)).allocated
    ∧ List.Nodup (runNonceSchedule (serializedSchedule n)).allocated := by
  have h : (runNonceSchedule (serializedSchedule n)).allocated = List.range n := by
    rw [runNonceSchedule, foldl_nonceStep_serialized n ⟨0, []⟩]
    simp
  rw [h]
  exact ⟨rfl, chain_lt_range n, List.nodup_range n⟩

/-- C4 counterexample: the unserialized schedule in which Jobs `1` and `2`
both read their nonce before either transaction is mined allocates the
nonce sequence `[0, 0]` — the same nonce twice, refuting "strictly
increasing and no nonce value is ever used twice" (and with it the claim's
serialized read-allocate-increment counter, which the code does not
have). -/
theorem concurrent_nonce_reuse_counterexample :
    (runNonceSchedule
        [.readNonce 1, .readNonce 2, .mineTx 1, .mineTx 2]).allocated = [0, 0]
    ∧ ¬ List.Chain' (· < ·)
        (runNonceSchedule
          [.readNonce 1, .readNonce 2, .mineTx 1, .mineTx 2]).allocated
    ∧ ¬ List.Nodup
        (runNonceSchedule
          [.readNonce 1, .readNonce 2, .mineTx 1, .mineTx 2]).allocated := by
  have h : (runNonceSchedule
      [.readNonce 1, .readNonce 2, .mineTx 1, .mineTx 2]).allocated
        = [0, 0] := rfl
  refine ⟨rfl, ?_, ?_⟩ <;> rw [h] <;> simp [List.chain'_cons]

/-! ## `EventListener.mark_message_processed` (`blockchain/event_listener.py`
lines 152-191, claims C6, C10)

The whole body sits inside one `try/except Exception: return False`.  The
outcomes of the fallible external calls are modelled as `Except` values:
building the transaction (which itself reads gas price and nonce over
RPC), signing, `send_raw_transaction` (an `RpcError` is a raise here),
and `wait_for_transaction_receipt(timeout=120)` (a receipt timeout is a
raise here; success carries `receipt.status`). -/

/-- Environment of one `mark_message_processed` call: the `PRIVATE_KEY`
environment variable and the outcome of each external call, in program
order. -/
structure SubmitEnv where
  private_key : Option String
  buildResult : Except String BuiltTx
  signResult : Except String String
  sendResult : Except String String
  receiptResult : Except String Nat

/-- Result of one run: the returned boolean, and how many times
`send_raw_transaction` was invoked. -/
structure SubmitRun where
  returned : Bool
  sendAttempts : Nat
deriving DecidableEq

/-- `EventListener.mark_message_processed`
(`blockchain/event_listener.py` lines 152-191): return `False` when
`PRIVATE_KEY` is unset; build, sign, send, wait for the receipt; return
`True` iff `receipt.status == 1`; any exception anywhere is caught and
yields `False`.  The send is in straight-line code — there is no loop, so
no outcome invokes it more than once. -/
def listener_mark_message_processed (env : SubmitEnv) : SubmitRun :=
  match env.private_key with
  | none => ⟨false, 0⟩
  | some _ =>
    match env.buildResult with
    | .error _ => ⟨false, 0⟩
    | .ok _ =>
      match env.signResult with
      | .error _ => ⟨false, 0⟩
      | .ok _ =>
        match env.sendResult with
        | .error _ => ⟨false, 1⟩
        | .ok _ =>
          match env.receiptResult with
          | .error _ => ⟨false, 1⟩
          | .ok status => ⟨status == 1, 1⟩

/-- C10: `mark_message_processed` is a total boolean function of its
environment — it returns `True` exactly when `PRIVATE_KEY` is set, build,
sign and send all succeed, and the awaited receipt has status 1; in every
other case (missing key, any raised exception, reverted receipt) it
returns `False`.  "Never raises" is the totality of this function: every
raising branch of the source is matched and mapped to `False` by the
enclosing `except`. -/
theorem listener_mark_returns_true_iff (env : SubmitEnv) :
    (listener_mark_message_processed env).returned = true
      ↔ env.private_key.isSome
        ∧ (∃ tx, env.buildResult = .ok tx)
        ∧ (∃ s, env.signResult = .ok s)
        ∧ (∃ h, env.sendResult = .ok h)
        ∧ env.receiptResult = .ok 1 := by
  cases hk : env.private_key <;>
    cases hb : env.buildResult <;>
      cases hs : env.signResult <;>
        cases hd : env.sendResult <;>
          cases hr : env.receiptResult <;>
            simp [listener_mark_message_processed, hk, hb, hs, hd, hr]

/-- C6 amended: there is no retry and no backoff anywhere in
`mark_message_processed`: in every environment the send is attempted at
most once, and whenever the send raises (e.g. an `RpcError`) or the
receipt wait raises (a timeout), the call returns `False` — in
particular a transaction is never resubmitted, with the same nonce or
otherwise. -/
theorem submit_no_retry_policy (env : SubmitEnv) :
    (listener_mark_message_processed env).sendAttempts ≤ 1
    ∧ ((∃ err, env.sendResult = .error err)
          ∨ (∃ err, env.receiptResult = .error err)
        → (listener_mark_message_processed env).returned = false) := by
  cases hk : env.private_key <;>
    cases hb : env.buildResult <;>
      cases hs : env.signResult <;>
        cases hd : env.sendResult <;>
          cases hr : env.receiptResult <;>
            simp [listener_mark_message_processed, hk, hb, hs, hd, hr]

/-- Witness for C6's amended theorem at a concrete environment whose
receipt wait times out. -/
theorem submit_no_retry_policy_witness :
    (listener_mark_message_processed
        ⟨some "k", .ok ⟨['0', 'x'], "a", 100000, 5, 0⟩, .ok "signed", .ok "0xh",
          .error "Timeout"⟩).sendAttempts ≤ 1
    ∧ (listener_mark_message_processed
        ⟨some "k", .ok ⟨['0', 'x'], "a", 100000, 5, 0⟩, .ok "signed", .ok "0xh",
          .error "Timeout"⟩).returned = false :=
  ⟨(submit_no_retry_policy
      ⟨some "k", .ok ⟨['0', 'x'], "a", 100000, 5, 0⟩, .ok "signed", .ok "0xh",
        .error "Timeout"⟩).1,
    (submit_no_retry_policy
      ⟨some "k", .ok ⟨['0', 'x'], "a", 100000, 5, 0⟩, .ok "signed", .ok "0xh",
        .error "Timeout"⟩).2 (Or.inr ⟨"Timeout", rfl⟩)⟩

/-- C6 counterexample: when `send_raw_transaction` raises an `RpcError`,
the call gives up immediately with `False` after exactly one send attempt
— there is no retry and no backoff, refuting "retries the send up to a
small fixed count with exponential backoff". -/
theorem rpc_error_no_retry_counterexample :
    listener_mark_message_processed
        ⟨some "k", .ok ⟨['0', 'x'], "a", 100000, 5, 0⟩, .ok "signed",
          .error "RpcError", .error "unreached"⟩
      = ⟨false, 1⟩ := rfl

/-! ## Startup configuration (`server.py` lines 234-302 and
`config/blockchain.py`, claim C7)

`start_event_listener` reads `PRIVATE_KEY`, `MESSAGE_MANAGER_ADDRESS` and
`NETWORK_ID` from the environment.  On a missing/placeholder value it
logs and `return`s — the FastAPI lifespan then proceeds and the server
keeps running with the listener disabled; nothing raises and nothing
calls `sys.exit`.  The whole body is additionally wrapped in
`try/except Exception`, so even an unexpected error cannot escape. -/

/-- Environment read by `start_event_listener` (`server.py` lines
239-242, with `os.getenv` defaults `""`), plus the outcome of the
connectivity probe `web3_instance.is_connected()`. -/
structure StartupEnv where
  private_key : String
  message_manager_address : String
  network_id : Nat
  rpc_connected : Bool
deriving DecidableEq

/-- What startup observably did: whether the process was terminated
during startup, and whether the event-listener task was created. -/
structure StartupOutcome where
  processExited : Bool
  listenerStarted : Bool
  log : String
deriving DecidableEq

/-- `get_rpc_url` in `server.py` (lines 295-302): the three hard-coded
networks, empty string otherwise. -/
def server_get_rpc_url (network_id : Nat) : String :=
  if network_id = 11155111 then "https://rpc.sepolia.org"
  else if network_id = 84532 then "https://sepolia.base.org"
  else if network_id = 8453 then "https://mainnet.base.org"
  else ""

/-- `start_event_listener` (`server.py` lines 234-281): each missing or
placeholder configuration value logs a message and returns with the
listener disabled; only with all values present and a live RPC connection
is the listening task created.  No branch terminates the process. -/
def start_event_listener (env : StartupEnv) : StartupOutcome :=
  if env.private_key = "" || env.private_key = "0x..." then
    ⟨false, false, "No private key configured, event listener disabled"⟩
  else if env.message_manager_address = ""
      || env.message_manager_address = "0x0000000000000000000000000000000000000000" then
    ⟨false, false, "No MessageManager contract address configured, event listener disabled"⟩
  else if server_get_rpc_url env.network_id = "" then
    ⟨false, false, "No RPC URL for network"⟩
  else if !env.rpc_connected then
    ⟨false, false, "Failed to connect"⟩
  else
    ⟨false, true, "Event listener started successfully"⟩

/-- `BlockchainConfig.get_rpc_url` (`config/blockchain.py` lines 13-29):
raises `ValueError` with a human-readable message when `ETHEREUM_RPC_URL`
is unset or empty.  (This helper is not on the server startup path; it is
used by `test_connection_fix.py` and `agent.py`.) -/
def blockchain_config_get_rpc_url (ethereum_rpc_url : Option String) :
    Except String String :=
  match ethereum_rpc_url with
  | some url =>
      if url = "" then
        .error "ETHEREUM_RPC_URL environment variable is required."
      else .ok url
  | none => .error "ETHEREUM_RPC_URL environment variable is required."

/-- `BlockchainConfig.get_agent_private_key` (`config/blockchain.py`
lines 31-47): raises `ValueError` with a human-readable message when
`PRIVATE_KEY` is unset or empty. -/
def blockchain_config_get_agent_private_key (private_key : Option String) :
    Except String String :=
  match private_key with
  | some pk =>
      if pk = "" then
        .error "PRIVATE_KEY environment variable is required."
      else .ok pk
  | none => .error "PRIVATE_KEY environment variable is required."

/-- Whether an `Except` result is a success. -/
def exceptSucceeded : Except String String → Bool
  | .ok _ => true
  | .error _ => false

/-- `BlockchainConfig.validate_config` (`config/blockchain.py` lines
73-86): calls the two getters, catches `ValueError`, prints the message
and returns `False`; returns `True` when both succeed.  It returns a
boolean — it does not exit the process either. -/
def validate_config (ethereum_rpc_url private_key : Option String) : Bool :=
  exceptSucceeded (blockchain_config_get_rpc_url ethereum_rpc_url)
    && exceptSucceeded (blockchain_config_get_agent_private_key private_key)

/-- C7 counterexample: with `PRIVATE_KEY` unset (default `""`), startup
does not exit the process — the listener is merely disabled with a logged
warning and the server continues — refuting "the process exits non-zero".
The same run shows `validate_config` also only returns `false`. -/
theorem missing_config_no_exit_counterexample :
    (start_event_listener ⟨"", "", 11155111, true⟩).processExited = false
    ∧ (start_event_listener ⟨"", "", 11155111, true⟩).listenerStarted = false
    ∧ validate_config none none = false := by
  refine ⟨rfl, rfl, rfl⟩

/-- C7 amended: missing required configuration is not fatal — for every
environment, `start_event_listener` leaves the process running
(`processExited = false`), and the listener is started iff the private
key, contract address, RPC URL and connection are all present; the
`BlockchainConfig` helpers do produce human-readable `ValueError`
messages for missing settings, but only as caught exceptions off the
server startup path. -/
theorem startup_degrades_never_exits (env : StartupEnv) :
    (start_event_listener env).processExited = false
    ∧ ((start_event_listener env).listenerStarted = true
        ↔ ¬(env.private_key = "" ∨ env.private_key = "0x...")
          ∧ ¬(env.message_manager_address = ""
              ∨ env.message_manager_address = "0x0000000000000000000000000000000000000000")
          ∧ server_get_rpc_url env.network_id ≠ ""
          ∧ env.rpc_connected = true) := by
  unfold start_event_listener
  constructor
  · split <;> try rfl
    split <;> try rfl
    split <;> try rfl
    split <;> rfl
  · constructor
    · intro h
      by_cases h1 : env.private_key = "" || env.private_key = "0x..."
      · simp [h1] at h
      · by_cases h2 : env.message_manager_address = ""
            || env.message_manager_address = "0x0000000000000000000000000000000000000000"
        · simp [h1, h2] at h
        · by_cases h3 : server_get_rpc_url env.network_id = ""
          · simp [h1, h2, h3] at h
          · by_cases h4 : env.rpc_connected
            · simp only [Bool.or_eq_true, decide_eq_true_eq] at h1 h2
              exact ⟨h1, h2, h3, h4⟩
            · simp [h1, h2, h3, h4] at h
    · rintro ⟨h1, h2, h3, h4⟩
      have h1' : (env.private_key = "" || env.private_key = "0x...") = false := by
        simp only [Bool.or_eq_false_iff, decide_eq_false_iff_not]
        tauto
      have h2' : (env.message_manager_address = ""
          || env.message_manager_address
              = "0x0000000000000000000000000000000000000000") = false := by
        simp only [Bool.or_eq_false_iff, decide_eq_false_iff_not]
        tauto
      simp [h1', h2', h3, h4]

end CompPortfolio
